import Mathlib

/-!
Verification of the Monte Carlo consumer-harm engine
(`consumer_harm_monte_carlo.py` and `main.py`).

Shallow embedding conventions:
* Python/NumPy floats are idealised as exact numbers: uniform draws from the
  global pseudo-random generator are rationals in `[0,1)` (NumPy's
  `rk_double` produces dyadic rationals), and derived sample values live in
  `ℝ` because NumPy's triangular sampler takes square roots.
* The global NumPy generator is made explicit: every sampling function takes
  the stream `u : Nat → ℚ` of successive uniform draws together with the
  offset of the next unconsumed draw, mirroring the strictly sequential
  consumption order of the source (six triangular vectors of length `n`,
  then three `np.random.random(n)` vectors).
* Failure is explicit: `np.random.triangular` raises
  `ValueError("left > mode")`, `ValueError("mode > right")` or
  `ValueError("left == right")` when its bounds are mis-ordered or
  degenerate, and array creation raises
  `ValueError("negative dimensions are not allowed")` for a negative size;
  these exceptions are modelled by `Except SimError`.
-/

/-- A Python exception surfaced by the engine.  The source never defines
`InvalidParameterError` or `EmptyTableError`; the only failures are NumPy
`ValueError`s, carried here with their messages. -/
inductive SimError where
  | valueError (msg : String)
deriving DecidableEq, Repr

/-- A `{min, mode, max}` triple, one per input variable
(`PARAMS['...']` dictionaries in the source). -/
structure DistSpec where
  min : ℚ
  mode : ℚ
  max : ℚ
deriving DecidableEq, Repr

/-- The six named distribution specs of a parameter configuration
(the `PARAMS`-shaped dictionaries of the source). -/
structure ParamSet where
  base_service_cost : DistSpec
  hidden_fees : DistSpec
  service_failure_prob : DistSpec
  claim_denial_prob : DistSpec
  damage_occurrence_rate : DistSpec
  average_damage_value : DistSpec
deriving DecidableEq, Repr

/-- `N_SIMULATIONS = 10000` from the source configuration block. -/
def N_SIMULATIONS : ℤ := 10000

/-- `ANNUAL_TRANSACTIONS = 1.73e6` from the source configuration block. -/
def ANNUAL_TRANSACTIONS : ℝ := 1730000

/-- `SERVICE_FAILURE_PENALTY = 1000` from the source configuration block. -/
def SERVICE_FAILURE_PENALTY : ℝ := 1000

/-- The default `PARAMS` dictionary of the source. -/
def PARAMS : ParamSet where
  base_service_cost := ⟨2500, 3200, 4000⟩
  hidden_fees := ⟨0, 375, 1100⟩
  service_failure_prob := ⟨0.15, 0.30, 0.45⟩
  claim_denial_prob := ⟨0.60, 0.85, 0.95⟩
  damage_occurrence_rate := ⟨0.05, 0.12, 0.25⟩
  average_damage_value := ⟨500, 2500, 10000⟩

/-- One draw of NumPy's `rk_triangular` (the kernel behind
`np.random.triangular`): with `base = right - left`,
`leftbase = mode - left`, the draw for uniform `U` is
`left + sqrt(U * leftbase * base)` when `U <= leftbase / base`
and `right - sqrt((1 - U) * (right - mode) * base)` otherwise. -/
noncomputable def rkTriangular (left mode right : ℚ) (U : ℚ) : ℝ :=
  let base := right - left
  let leftbase := mode - left
  let leftfrac := leftbase / base
  if U ≤ leftfrac then
    (left : ℝ) + Real.sqrt ((U * (leftbase * base) : ℚ) : ℝ)
  else
    (right : ℝ) - Real.sqrt (((1 - U) * ((right - mode) * base) : ℚ) : ℝ)

/-- `triangular_sample(min_val, mode_val, max_val, size)` from the source:
a thin wrapper around `np.random.triangular`, which first validates
`left <= mode <= right` and `left != right`, then fails on a negative
size, and otherwise consumes `size` uniforms `u off, u (off+1), ...`
from the global stream, one per sample. -/
noncomputable def triangular_sample (min_val mode_val max_val : ℚ) (size : ℤ)
    (u : Nat → ℚ) (off : Nat) : Except SimError (List ℝ) :=
  if min_val > mode_val then .error (.valueError "left > mode")
  else if mode_val > max_val then .error (.valueError "mode > right")
  else if min_val = max_val then .error (.valueError "left == right")
  else if size < 0 then .error (.valueError "negative dimensions are not allowed")
  else .ok ((List.range size.toNat).map fun i => rkTriangular min_val mode_val max_val (u (off + i)))

/-- `np.random.random(n)`: `n` uniform draws in `[0,1)` from the global
stream; a negative size raises `ValueError`. -/
def np_random (size : ℤ) (u : Nat → ℚ) (off : Nat) : Except SimError (List ℚ) :=
  if size < 0 then .error (.valueError "negative dimensions are not allowed")
  else .ok ((List.range size.toNat).map fun i => u (off + i))

/-- One row of the Result Table, with the nine columns of the source's
`pd.DataFrame` in order. -/
structure PerUnitRecord where
  service_cost : ℝ
  hidden_fees : ℝ
  service_failure : Bool
  service_failure_harm : ℝ
  damage_occurred : Bool
  damage_value : ℝ
  claim_denied : Bool
  damage_harm : ℝ
  total_harm : ℝ

/-- NumPy's implicit boolean-to-number coercion used by
`service_failures * SERVICE_FAILURE_PENALTY` and
`damage_occurred * damage_values * claims_denied`. -/
def boolToReal (b : Bool) : ℝ := if b then 1 else 0

/-- Row `i` of the simulation, assembled exactly as the element-wise NumPy
expressions of the source: the three event booleans threshold the three
uniform vectors against the sampled probabilities, and the harm columns are
the products and sum of lines 96-100 of `consumer_harm_monte_carlo.py`. -/
noncomputable def make_record (sc hf sfp cdp dor dv : ℝ) (u1 u2 u3 : ℚ) : PerUnitRecord :=
  let service_failure : Bool := decide ((u1 : ℝ) < sfp)
  let damage_occurred : Bool := decide ((u2 : ℝ) < dor)
  let claim_denied : Bool := decide ((u3 : ℝ) < cdp)
  let service_failure_harm : ℝ := boolToReal service_failure * SERVICE_FAILURE_PENALTY
  let damage_harm : ℝ := boolToReal damage_occurred * dv * boolToReal claim_denied
  { service_cost := sc
    hidden_fees := hf
    service_failure := service_failure
    service_failure_harm := service_failure_harm
    damage_occurred := damage_occurred
    damage_value := dv
    claim_denied := claim_denied
    damage_harm := damage_harm
    total_harm := hf + service_failure_harm + damage_harm }

/-- `run_monte_carlo_simulation(params, n_sims)` from the source: six
triangular vectors, three uniform vectors, then the element-wise harm
computation, consuming `9 * n` uniforms sequentially from the global
stream.  The returned list is the Result Table (`results` DataFrame). -/
noncomputable def run_monte_carlo_simulation (params : ParamSet) (n_sims : ℤ)
    (u : Nat → ℚ) : Except SimError (List PerUnitRecord) := do
  let m := n_sims.toNat
  let service_costs ← triangular_sample params.base_service_cost.min
    params.base_service_cost.mode params.base_service_cost.max n_sims u 0
  let hidden_fees ← triangular_sample params.hidden_fees.min
    params.hidden_fees.mode params.hidden_fees.max n_sims u m
  let service_failure_probs ← triangular_sample params.service_failure_prob.min
    params.service_failure_prob.mode params.service_failure_prob.max n_sims u (2 * m)
  let claim_denial_probs ← triangular_sample params.claim_denial_prob.min
    params.claim_denial_prob.mode params.claim_denial_prob.max n_sims u (3 * m)
  let damage_occurrence_rates ← triangular_sample params.damage_occurrence_rate.min
    params.damage_occurrence_rate.mode params.damage_occurrence_rate.max n_sims u (4 * m)
  let damage_values ← triangular_sample params.average_damage_value.min
    params.average_damage_value.mode params.average_damage_value.max n_sims u (5 * m)
  let uniforms1 ← np_random n_sims u (6 * m)
  let uniforms2 ← np_random n_sims u (7 * m)
  let uniforms3 ← np_random n_sims u (8 * m)
  pure ((List.range m).map fun i =>
    make_record (service_costs.getD i 0) (hidden_fees.getD i 0)
      (service_failure_probs.getD i 0) (claim_denial_probs.getD i 0)
      (damage_occurrence_rates.getD i 0) (damage_values.getD i 0)
      (uniforms1.getD i 0) (uniforms2.getD i 0) (uniforms3.getD i 0))

/-- Row `i` of the table produced by a successful simulation run of `m`
records: each sampled vector `k` reads the uniform at index `k * m + i`. -/
noncomputable def buildRecord (p : ParamSet) (m : Nat) (u : Nat → ℚ) (i : Nat) : PerUnitRecord :=
  make_record
    (rkTriangular p.base_service_cost.min p.base_service_cost.mode p.base_service_cost.max (u i))
    (rkTriangular p.hidden_fees.min p.hidden_fees.mode p.hidden_fees.max (u (m + i)))
    (rkTriangular p.service_failure_prob.min p.service_failure_prob.mode p.service_failure_prob.max (u (2 * m + i)))
    (rkTriangular p.claim_denial_prob.min p.claim_denial_prob.mode p.claim_denial_prob.max (u (3 * m + i)))
    (rkTriangular p.damage_occurrence_rate.min p.damage_occurrence_rate.mode p.damage_occurrence_rate.max (u (4 * m + i)))
    (rkTriangular p.average_damage_value.min p.average_damage_value.mode p.average_damage_value.max (u (5 * m + i)))
    (u (6 * m + i)) (u (7 * m + i)) (u (8 * m + i))

/-- The table produced by a successful simulation run of `m` records. -/
noncomputable def buildTable (p : ParamSet) (m : Nat) (u : Nat → ℚ) : List PerUnitRecord :=
  (List.range m).map (buildRecord p m u)

/-- A distribution spec that `np.random.triangular` accepts:
ordered bounds that are not degenerate. -/
def validSpec (d : DistSpec) : Prop :=
  d.min ≤ d.mode ∧ d.mode ≤ d.max ∧ d.min ≠ d.max

instance : DecidablePred validSpec := fun d => by unfold validSpec; infer_instance

/-- All six entries of a parameter set pass `np.random.triangular`'s
validation. -/
def validParams (p : ParamSet) : Prop :=
  validSpec p.base_service_cost ∧ validSpec p.hidden_fees ∧
  validSpec p.service_failure_prob ∧ validSpec p.claim_denial_prob ∧
  validSpec p.damage_occurrence_rate ∧ validSpec p.average_damage_value

instance : DecidablePred validParams := fun p => by unfold validParams; infer_instance

/-- A uniform stream as produced by the generator: every draw lies in `[0,1)`. -/
def unitStream (u : Nat → ℚ) : Prop := ∀ i, 0 ≤ u i ∧ u i < 1

/-- Arithmetic mean of a pandas Series: `NaN` (here `none`) on an empty
series, otherwise the sum over the length. -/
noncomputable def seriesMean (xs : List ℝ) : Option ℝ :=
  if xs.isEmpty then none else some (xs.sum / xs.length)

/-- Pandas `Series.var(ddof)`: `NaN` when fewer than `ddof + 1`
observations, otherwise the sum of squared deviations from the mean over
`length - ddof`. -/
noncomputable def seriesVar (xs : List ℝ) (ddof : Nat) : Option ℝ :=
  if xs.length ≤ ddof then none
  else some ((xs.map fun x => (x - xs.sum / xs.length) ^ 2).sum / ((xs.length - ddof : Nat) : ℝ))

/-- Pandas `Series.std(ddof)`: the square root of `Series.var(ddof)`. -/
noncomputable def seriesStd (xs : List ℝ) (ddof : Nat) : Option ℝ :=
  (seriesVar xs ddof).map Real.sqrt

/-- Pandas `Series.quantile(q)` with the default linear ("type 7")
interpolation: on the sorted data, position `h = q * (n - 1)`, linearly
interpolated between the order statistics at `⌊h⌋` and `⌈h⌉`.
`NaN` (here `none`) on an empty series.  `Series.median()` coincides with
`quantile (1/2)`: averaging the two middle order statistics is exactly the
linear interpolation at `h = (n - 1) / 2`. -/
noncomputable def seriesQuantile (xs : List ℝ) (q : ℚ) : Option ℝ :=
  if xs.isEmpty then none else
  let sorted := xs.mergeSort fun a b => decide (a ≤ b)
  let h : ℚ := q * (xs.length - 1)
  let lo := h.floor.toNat
  let hi := h.ceil.toNat
  some (sorted.getD lo 0 + ((h - h.floor : ℚ) : ℝ) * (sorted.getD hi 0 - sorted.getD lo 0))

/-- The Statistics Mapping: the keyed scalar metrics of
`calculate_statistics` in `main.py` (a superset of the
`consumer_harm_monte_carlo.py` version, which lacks the three percentage
keys and computes the rest identically).  Count metrics are exact Python
integers (`.sum()` of a boolean mask); the aggregate metrics of an empty
series are `NaN`, modelled as `none`. -/
structure StatsMapping where
  mean_harm : Option ℝ
  median_harm : Option ℝ
  std_dev : Option ℝ
  min_harm : Option ℝ
  max_harm : Option ℝ
  percentile_10 : Option ℝ
  percentile_25 : Option ℝ
  percentile_75 : Option ℝ
  percentile_90 : Option ℝ
  percentile_95 : Option ℝ
  percentile_99 : Option ℝ
  customers_zero_harm : Nat
  customers_gt_1000 : Nat
  customers_gt_5000 : Nat
  pct_zero_harm : Option ℝ
  pct_gt_1000 : Option ℝ
  pct_gt_5000 : Option ℝ
  annual_impact_mean : Option ℝ
  annual_impact_p95 : Option ℝ

/-- `calculate_statistics(results)` from `main.py` (lines 114-140): every
metric is computed from the `total_harm` column.  Percentages divide the
threshold count by `len(harm)`; on an empty table that division is NumPy's
`0 / 0 = NaN`, modelled as `none`. -/
noncomputable def calculate_statistics (results : List PerUnitRecord) : StatsMapping :=
  let harm := results.map PerUnitRecord.total_harm
  { mean_harm := seriesMean harm
    median_harm := seriesQuantile harm (1 / 2)
    std_dev := seriesStd harm 1
    min_harm := harm.min?
    max_harm := harm.max?
    percentile_10 := seriesQuantile harm (10 / 100)
    percentile_25 := seriesQuantile harm (25 / 100)
    percentile_75 := seriesQuantile harm (75 / 100)
    percentile_90 := seriesQuantile harm (90 / 100)
    percentile_95 := seriesQuantile harm (95 / 100)
    percentile_99 := seriesQuantile harm (99 / 100)
    customers_zero_harm := harm.countP fun x => decide (x = 0)
    customers_gt_1000 := harm.countP fun x => decide (x > 1000)
    customers_gt_5000 := harm.countP fun x => decide (x > 5000)
    pct_zero_harm :=
      if harm.isEmpty then none
      else some (((harm.countP fun x => decide (x = 0)) : ℝ) / harm.length * 100)
    pct_gt_1000 :=
      if harm.isEmpty then none
      else some (((harm.countP fun x => decide (x > 1000)) : ℝ) / harm.length * 100)
    pct_gt_5000 :=
      if harm.isEmpty then none
      else some (((harm.countP fun x => decide (x > 5000)) : ℝ) / harm.length * 100)
    annual_impact_mean := (seriesMean harm).map fun v => v * ANNUAL_TRANSACTIONS
    annual_impact_p95 := (seriesQuantile harm (95 / 100)).map fun v => v * ANNUAL_TRANSACTIONS }

/-- The scenario loop shared by `run_scenario_analysis`
(`consumer_harm_monte_carlo.py`, lines 307-322) and `main()` (`main.py`,
lines 278-287): iterate the named configurations in order, run the
simulation then the statistics for each, and collect
`name ↦ (results, stats)`.  The loop body has no exception handler, so the
first raised error propagates out of the whole loop (modelled by the
`Except` bind).  Each scenario consumes `9 * n` draws of the shared global
stream. -/
noncomputable def run_scenarios_list (scs : List (String × ParamSet)) (n_sims : ℤ)
    (u : Nat → ℚ) : Except SimError (List (String × (List PerUnitRecord × StatsMapping))) :=
  match scs with
  | [] => .ok []
  | (name, p) :: rest => do
      let results ← run_monte_carlo_simulation p n_sims u
      let tail ← run_scenarios_list rest n_sims fun k => u (9 * n_sims.toNat + k)
      pure ((name, (results, calculate_statistics results)) :: tail)

/-- The "Moderate Reform" parameter configuration of the source. -/
def MODERATE_REFORM : ParamSet where
  base_service_cost := PARAMS.base_service_cost
  hidden_fees := ⟨0, 150, 500⟩
  service_failure_prob := ⟨0.10, 0.20, 0.30⟩
  claim_denial_prob := ⟨0.40, 0.60, 0.80⟩
  damage_occurrence_rate := PARAMS.damage_occurrence_rate
  average_damage_value := PARAMS.average_damage_value

/-- The "Strong Reform" parameter configuration of the source. -/
def STRONG_REFORM : ParamSet where
  base_service_cost := PARAMS.base_service_cost
  hidden_fees := ⟨0, 50, 200⟩
  service_failure_prob := ⟨0.05, 0.10, 0.15⟩
  claim_denial_prob := ⟨0.20, 0.35, 0.50⟩
  damage_occurrence_rate := ⟨0.03, 0.08, 0.15⟩
  average_damage_value := PARAMS.average_damage_value

/-- `run_scenario_analysis()` from the source: the hard-coded scenario
catalog run through the scenario loop with the default iteration count. -/
noncomputable def run_scenario_analysis (u : Nat → ℚ) :
    Except SimError (List (String × (List PerUnitRecord × StatsMapping))) :=
  run_scenarios_list
    [("Status Quo", PARAMS), ("Moderate Reform", MODERATE_REFORM), ("Strong Reform", STRONG_REFORM)]
    N_SIMULATIONS u

/-- Modelled from the spec: `np.random.seed(42)` seeds the single global
pseudo-random generator once, and all draws are taken from it strictly
sequentially.  The Mersenne Twister itself is library code outside this
repository; it is replaced by an explicit deterministic generator (a
linear congruential step), which preserves the property at stake:
the stream of uniforms is a pure function of the seed. -/
def lcgStep (s : Nat) : Nat := (1664525 * s + 1013904223) % 4294967296

/-- Iterated generator state after `k` steps from a seed. -/
def lcgIter (s : Nat) : Nat → Nat
  | 0 => s
  | k + 1 => lcgStep (lcgIter s k)

/-- The uniform stream determined by a seed: draw `i` is the state after
`i + 1` generator steps, scaled into `[0,1)`. -/
def seeded_stream (seed : Nat) : Nat → ℚ :=
  fun i => (lcgIter seed (i + 1) : ℚ) / 4294967296

/-- `np.random.triangular` succeeds exactly on ordered, non-degenerate
bounds and a nonnegative size, and then returns one inverse-CDF draw per
consumed uniform. -/
theorem triangular_sample_ok {min_val mode_val max_val : ℚ} {size : ℤ}
    (h1 : min_val ≤ mode_val) (h2 : mode_val ≤ max_val) (h3 : min_val ≠ max_val)
    (hs : 0 ≤ size) (u : Nat → ℚ) (off : Nat) :
    triangular_sample min_val mode_val max_val size u off =
      .ok ((List.range size.toNat).map fun i => rkTriangular min_val mode_val max_val (u (off + i))) := by
  unfold triangular_sample
  rw [if_neg (not_lt.mpr h1), if_neg (not_lt.mpr h2), if_neg h3, if_neg (not_lt.mpr hs)]

/-- Inversion for a successful `triangular_sample` call. -/
theorem triangular_sample_ok_inv {min_val mode_val max_val : ℚ} {size : ℤ}
    {u : Nat → ℚ} {off : Nat} {l : List ℝ}
    (h : triangular_sample min_val mode_val max_val size u off = .ok l) :
    (min_val ≤ mode_val ∧ mode_val ≤ max_val ∧ min_val ≠ max_val) ∧ 0 ≤ size := by
  unfold triangular_sample at h
  split_ifs at h with c1 c2 c3 c4
  all_goals first
  | exact Except.noConfusion h
  | exact ⟨⟨not_lt.mp c1, not_lt.mp c2, c3⟩, not_lt.mp c4⟩

/-- `np.random.random` succeeds on a nonnegative size. -/
theorem np_random_ok {size : ℤ} (hs : 0 ≤ size) (u : Nat → ℚ) (off : Nat) :
    np_random size u off = .ok ((List.range size.toNat).map fun i => u (off + i)) := by
  unfold np_random
  rw [if_neg (not_lt.mpr hs)]

/-- A bound `Except` computation yields `ok` exactly when both stages do. -/
theorem exceptBind_ok {ε α β : Type} {x : Except ε α} {f : α → Except ε β} {b : β} :
    x >>= f = .ok b ↔ ∃ a, x = .ok a ∧ f a = .ok b := by
  cases x with
  | error e => simp [Bind.bind, Except.bind]
  | ok a => simp [Bind.bind, Except.bind]

/-- `pure` of the `Except` monad is `Except.ok`. -/
theorem pure_ok {ε α : Type} {x : α} : (pure x : Except ε α) = .ok x := rfl

/-- A failing first stage short-circuits an `Except` bind. -/
theorem exceptBind_error {ε α β : Type} {x : Except ε α} {f : α → Except ε β} {e : ε}
    (h : x = .error e) : x >>= f = .error e := by
  subst h; rfl

/-- Pointwise-equal functions map a list to the same image. -/
theorem map_congr_mem {α β : Type} {l : List α} {f g : α → β}
    (h : ∀ a ∈ l, f a = g a) : l.map f = l.map g := by
  induction l with
  | nil => rfl
  | cons x xs ih =>
      simp only [List.map_cons]
      rw [h x (by simp), ih fun a ha => h a (by simp [ha])]

/-- `getD` on a mapped range hits the function value inside the range. -/
theorem getD_map_range {α : Type} {g : Nat → α} {m i : Nat} (h : i < m) (d : α) :
    ((List.range m).map g).getD i d = g i := by
  simp [List.getD_eq_getElem?_getD, List.getElem?_map, List.getElem?_range, h]

/-- A simulation run with valid parameters and a nonnegative iteration
count succeeds and produces exactly the assembled table. -/
theorem run_ok (p : ParamSet) {n : ℤ} (u : Nat → ℚ) (hv : validParams p) (hn : 0 ≤ n) :
    run_monte_carlo_simulation p n u = .ok (buildTable p n.toNat u) := by
  obtain ⟨⟨a1, a2, a3⟩, ⟨b1, b2, b3⟩, ⟨c1, c2, c3⟩, ⟨d1, d2, d3⟩, ⟨e1, e2, e3⟩, ⟨f1, f2, f3⟩⟩ := hv
  unfold run_monte_carlo_simulation
  simp only [triangular_sample_ok a1 a2 a3 hn u, triangular_sample_ok b1 b2 b3 hn u,
    triangular_sample_ok c1 c2 c3 hn u, triangular_sample_ok d1 d2 d3 hn u,
    triangular_sample_ok e1 e2 e3 hn u, triangular_sample_ok f1 f2 f3 hn u,
    np_random_ok hn u]
  simp only [exceptBind_ok, pure_ok, Except.ok.injEq]
  refine ⟨_, rfl, _, rfl, _, rfl, _, rfl, _, rfl, _, rfl, _, rfl, _, rfl, _, rfl, ?_⟩
  unfold buildTable
  refine map_congr_mem fun i hi => ?_
  have him : i < n.toNat := List.mem_range.mp hi
  unfold buildRecord
  rw [getD_map_range him, getD_map_range him, getD_map_range him, getD_map_range him,
    getD_map_range him, getD_map_range him, getD_map_range him, getD_map_range him,
    getD_map_range him]
  simp only [Nat.zero_add]

/-- Inversion for a successful simulation run: the parameters were valid,
the count nonnegative, and the table is the assembled one. -/
theorem run_ok_inv {p : ParamSet} {n : ℤ} {u : Nat → ℚ} {t : List PerUnitRecord}
    (h : run_monte_carlo_simulation p n u = .ok t) :
    validParams p ∧ 0 ≤ n ∧ t = buildTable p n.toNat u := by
  have h0 := h
  unfold run_monte_carlo_simulation at h
  simp only [exceptBind_ok, pure_ok, Except.ok.injEq] at h
  obtain ⟨sc, hsc, hf, hhf, sp, hsp, cp, hcp, dr, hdr, dv, hdv, r1, hr1, r2, hr2, r3, hr3, ht⟩ := h
  obtain ⟨v1, hn⟩ := triangular_sample_ok_inv hsc
  obtain ⟨v2, -⟩ := triangular_sample_ok_inv hhf
  obtain ⟨v3, -⟩ := triangular_sample_ok_inv hsp
  obtain ⟨v4, -⟩ := triangular_sample_ok_inv hcp
  obtain ⟨v5, -⟩ := triangular_sample_ok_inv hdr
  obtain ⟨v6, -⟩ := triangular_sample_ok_inv hdv
  have hv : validParams p := ⟨v1, v2, v3, v4, v5, v6⟩
  rw [run_ok p u hv hn] at h0
  exact ⟨hv, hn, ((Except.ok.injEq _ _).mp h0).symm⟩

/-- A triangular draw with ordered bounds and a nonnegative uniform never
falls below the left bound. -/
theorem rkTriangular_ge {left mode right U : ℚ} (h1 : left ≤ mode) (h2 : mode ≤ right)
    (hU0 : 0 ≤ U) : (left : ℝ) ≤ rkTriangular left mode right U := by
  simp only [rkTriangular]
  split_ifs with hc
  · have hs := Real.sqrt_nonneg ((U * ((mode - left) * (right - left)) : ℚ) : ℝ)
    linarith
  · have hq : ((1 - U) * ((right - mode) * (right - left)) : ℚ) ≤ (right - left) ^ 2 := by
      nlinarith [mul_nonneg (sub_nonneg.mpr h1) (sub_nonneg.mpr (h1.trans h2)),
        mul_nonneg (mul_nonneg hU0 (sub_nonneg.mpr h2)) (sub_nonneg.mpr (h1.trans h2))]
    have hnn : (0 : ℝ) ≤ ((right : ℝ) - (left : ℝ)) := by
      exact_mod_cast sub_nonneg.mpr (h1.trans h2)
    have hsq : Real.sqrt (((1 - U) * ((right - mode) * (right - left)) : ℚ) : ℝ) ≤
        (right : ℝ) - (left : ℝ) := by
      have hcast : (((1 - U) * ((right - mode) * (right - left)) : ℚ) : ℝ) ≤
          ((right : ℝ) - (left : ℝ)) ^ 2 := by
        exact_mod_cast hq
      calc Real.sqrt (((1 - U) * ((right - mode) * (right - left)) : ℚ) : ℝ)
          ≤ Real.sqrt (((right : ℝ) - (left : ℝ)) ^ 2) := Real.sqrt_le_sqrt hcast
        _ = (right : ℝ) - (left : ℝ) := Real.sqrt_sq hnn
    linarith

/-- NumPy's boolean coercion times a constant is an if-then-else. -/
theorem boolToReal_mul (b : Bool) (c : ℝ) : boolToReal b * c = if b then c else 0 := by
  cases b <;> simp [boolToReal]

/-- The three-factor product `bool * value * bool` of the damage-harm line
is an if-then-else on the conjunction. -/
theorem boolToReal_mul3 (b1 b2 : Bool) (c : ℝ) :
    boolToReal b1 * c * boolToReal b2 = if b1 && b2 then c else 0 := by
  cases b1 <;> cases b2 <;> simp [boolToReal]

/-- The boolean coercion is nonnegative. -/
theorem boolToReal_nonneg (b : Bool) : 0 ≤ boolToReal b := by
  cases b <;> simp [boolToReal]

/-- C1: every record produced by `run_monte_carlo_simulation` satisfies the
fixed harm-composition formula: `service_failure_harm` equals
`SERVICE_FAILURE_PENALTY` (1000) exactly when `service_failure` holds and 0
otherwise, `damage_harm` equals `damage_value` exactly when both
`damage_occurred` and `claim_denied` hold and 0 otherwise, and `total_harm`
equals `hidden_fees + service_failure_harm + damage_harm`. -/
theorem harm_composition_formula (p : ParamSet) (n : ℤ) (u : Nat → ℚ)
    (t : List PerUnitRecord) (r : PerUnitRecord)
    (ht : run_monte_carlo_simulation p n u = .ok t) (hr : r ∈ t) :
    r.service_failure_harm = (if r.service_failure then SERVICE_FAILURE_PENALTY else 0) ∧
    r.damage_harm = (if r.damage_occurred && r.claim_denied then r.damage_value else 0) ∧
    r.total_harm = r.hidden_fees + r.service_failure_harm + r.damage_harm := by
  obtain ⟨-, -, rfl⟩ := run_ok_inv ht
  unfold buildTable at hr
  obtain ⟨i, -, rfl⟩ := List.mem_map.mp hr
  simp only [buildRecord, make_record]
  exact ⟨boolToReal_mul _ _, boolToReal_mul3 _ _ _, trivial⟩

/-- Witness for C1: the harm-composition formula instantiated on a concrete
successful run (default parameters, one record, the all-zeros uniform
stream). -/
theorem harm_composition_formula_witness :
    run_monte_carlo_simulation PARAMS 1 (fun _ => 0) = .ok (buildTable PARAMS 1 fun _ => 0) ∧
    buildRecord PARAMS 1 (fun _ => 0) 0 ∈ buildTable PARAMS 1 (fun _ => 0) ∧
    ((buildRecord PARAMS 1 (fun _ => 0) 0).service_failure_harm =
      (if (buildRecord PARAMS 1 (fun _ => 0) 0).service_failure then SERVICE_FAILURE_PENALTY else 0) ∧
    (buildRecord PARAMS 1 (fun _ => 0) 0).damage_harm =
      (if (buildRecord PARAMS 1 (fun _ => 0) 0).damage_occurred &&
          (buildRecord PARAMS 1 (fun _ => 0) 0).claim_denied then
        (buildRecord PARAMS 1 (fun _ => 0) 0).damage_value else 0) ∧
    (buildRecord PARAMS 1 (fun _ => 0) 0).total_harm =
      (buildRecord PARAMS 1 (fun _ => 0) 0).hidden_fees +
      (buildRecord PARAMS 1 (fun _ => 0) 0).service_failure_harm +
      (buildRecord PARAMS 1 (fun _ => 0) 0).damage_harm) := by
  have h1 : run_monte_carlo_simulation PARAMS 1 (fun _ => 0) =
      .ok (buildTable PARAMS 1 fun _ => 0) :=
    run_ok PARAMS _ (by norm_num [validParams, validSpec, PARAMS]) (by norm_num)
  have h2 : buildRecord PARAMS 1 (fun _ => 0) 0 ∈ buildTable PARAMS 1 (fun _ => 0) := by
    unfold buildTable
    exact List.mem_map.mpr ⟨0, by simp, rfl⟩
  exact ⟨h1, h2, harm_composition_formula _ _ _ _ _ h1 h2⟩

/-- The spec's Distribution Spec invariant alone: ordered bounds
`min ≤ mode ≤ max` (degenerate triples allowed). -/
def orderedSpec (d : DistSpec) : Prop := d.min ≤ d.mode ∧ d.mode ≤ d.max

/-- All six entries satisfy the spec's `min ≤ mode ≤ max` invariant. -/
def orderedParams (p : ParamSet) : Prop :=
  orderedSpec p.base_service_cost ∧ orderedSpec p.hidden_fees ∧
  orderedSpec p.service_failure_prob ∧ orderedSpec p.claim_denial_prob ∧
  orderedSpec p.damage_occurrence_rate ∧ orderedSpec p.average_damage_value

/-- A parameter set whose six entries all satisfy `min ≤ mode ≤ max` but
whose hidden-fee distribution has negative support. -/
def NEGATIVE_FEES_PARAMS : ParamSet where
  base_service_cost := ⟨0, 1, 2⟩
  hidden_fees := ⟨-5, -4, -3⟩
  service_failure_prob := ⟨0, 1/2, 1⟩
  claim_denial_prob := ⟨0, 1/2, 1⟩
  damage_occurrence_rate := ⟨0, 1/2, 1⟩
  average_damage_value := ⟨0, 1, 2⟩

/-- C2 counterexample: a parameter set whose six entries all satisfy
`min ≤ mode ≤ max`, with `n = 1 > 0`, for which the run succeeds and the
single produced record has `total_harm = -5 < 0` (the all-zeros uniform
stream sends every triangular draw to its `min`, and the negative
hidden-fee support is added unguarded). -/
theorem total_harm_nonneg_counterexample :
    orderedParams NEGATIVE_FEES_PARAMS ∧ (0 : ℤ) < 1 ∧
    (run_monte_carlo_simulation NEGATIVE_FEES_PARAMS 1 fun _ => 0).map
      (List.map PerUnitRecord.total_harm) = .ok [(-5 : ℝ)] ∧ (-5 : ℝ) < 0 := by
  refine ⟨by norm_num [orderedParams, orderedSpec, NEGATIVE_FEES_PARAMS], by norm_num, ?_, by norm_num⟩
  rw [run_ok NEGATIVE_FEES_PARAMS _
    (by norm_num [validParams, validSpec, NEGATIVE_FEES_PARAMS]) (by norm_num)]
  show Except.ok ((buildTable NEGATIVE_FEES_PARAMS 1 fun _ => 0).map PerUnitRecord.total_harm) = _
  have hrange : List.range 1 = [0] := rfl
  norm_num [buildTable, buildRecord, make_record, rkTriangular, NEGATIVE_FEES_PARAMS,
    hrange, boolToReal, Real.sqrt_zero]

/-- C2 (amended): for every ParameterSet whose entries satisfy
`min ≤ mode ≤ max` and whose `hidden_fees` and `average_damage_value`
entries additionally have nonnegative `min`, every record of a Result
Table returned by `run_monte_carlo_simulation` (uniform draws lying in
`[0,1)`) has `total_harm ≥ 0`.  The ordering of the six entries is forced
by the run succeeding, so only the two nonnegativity bounds and the
uniform-range side condition appear as hypotheses. -/
theorem total_harm_nonneg_amended {p : ParamSet} {n : ℤ} {u : Nat → ℚ}
    {t : List PerUnitRecord} {r : PerUnitRecord}
    (hhf : 0 ≤ p.hidden_fees.min) (hadv : 0 ≤ p.average_damage_value.min)
    (hu : unitStream u)
    (ht : run_monte_carlo_simulation p n u = .ok t) (hr : r ∈ t) :
    0 ≤ r.total_harm := by
  obtain ⟨hv, -, rfl⟩ := run_ok_inv ht
  unfold buildTable at hr
  obtain ⟨i, -, rfl⟩ := List.mem_map.mp hr
  obtain ⟨-, ⟨b1, b2, -⟩, -, -, -, ⟨f1, f2, -⟩⟩ := hv
  simp only [buildRecord, make_record]
  have hfee : (0 : ℝ) ≤ rkTriangular p.hidden_fees.min p.hidden_fees.mode
      p.hidden_fees.max (u (n.toNat + i)) :=
    le_trans (by exact_mod_cast hhf) (rkTriangular_ge b1 b2 (hu _).1)
  have hdval : (0 : ℝ) ≤ rkTriangular p.average_damage_value.min
      p.average_damage_value.mode p.average_damage_value.max (u (5 * n.toNat + i)) :=
    le_trans (by exact_mod_cast hadv) (rkTriangular_ge f1 f2 (hu _).1)
  have hpen : (0 : ℝ) ≤ SERVICE_FAILURE_PENALTY := by norm_num [SERVICE_FAILURE_PENALTY]
  have hsf : (0 : ℝ) ≤ boolToReal (decide
      ((u (6 * n.toNat + i) : ℝ) < rkTriangular p.service_failure_prob.min
        p.service_failure_prob.mode p.service_failure_prob.max (u (2 * n.toNat + i)))) *
      SERVICE_FAILURE_PENALTY :=
    mul_nonneg (boolToReal_nonneg _) hpen
  have hdh : (0 : ℝ) ≤ boolToReal (decide
      ((u (7 * n.toNat + i) : ℝ) < rkTriangular p.damage_occurrence_rate.min
        p.damage_occurrence_rate.mode p.damage_occurrence_rate.max (u (4 * n.toNat + i)))) *
      rkTriangular p.average_damage_value.min p.average_damage_value.mode
        p.average_damage_value.max (u (5 * n.toNat + i)) *
      boolToReal (decide ((u (8 * n.toNat + i) : ℝ) < rkTriangular p.claim_denial_prob.min
        p.claim_denial_prob.mode p.claim_denial_prob.max (u (3 * n.toNat + i)))) :=
    mul_nonneg (mul_nonneg (boolToReal_nonneg _) hdval) (boolToReal_nonneg _)
  exact add_nonneg (add_nonneg hfee hsf) hdh

/-- Witness for C2 (amended): the default parameters (whose hidden-fee and
damage-value minima are nonnegative) with one record and the all-zeros
uniform stream. -/
theorem total_harm_nonneg_amended_witness :
    0 ≤ PARAMS.hidden_fees.min ∧ 0 ≤ PARAMS.average_damage_value.min ∧
    unitStream (fun _ => 0) ∧
    run_monte_carlo_simulation PARAMS 1 (fun _ => 0) = .ok (buildTable PARAMS 1 fun _ => 0) ∧
    buildRecord PARAMS 1 (fun _ => 0) 0 ∈ buildTable PARAMS 1 (fun _ => 0) ∧
    0 ≤ (buildRecord PARAMS 1 (fun _ => 0) 0).total_harm := by
  have hhf : 0 ≤ PARAMS.hidden_fees.min := by norm_num [PARAMS]
  have hadv : 0 ≤ PARAMS.average_damage_value.min := by norm_num [PARAMS]
  have hu : unitStream (fun _ => 0) := fun i => by norm_num
  have ht : run_monte_carlo_simulation PARAMS 1 (fun _ => 0) =
      .ok (buildTable PARAMS 1 fun _ => 0) :=
    run_ok PARAMS _ (by norm_num [validParams, validSpec, PARAMS]) (by norm_num)
  have hr : buildRecord PARAMS 1 (fun _ => 0) 0 ∈ buildTable PARAMS 1 (fun _ => 0) := by
    unfold buildTable
    exact List.mem_map.mpr ⟨0, by simp, rfl⟩
  exact ⟨hhf, hadv, hu, ht, hr, total_harm_nonneg_amended hhf hadv hu ht hr⟩

/-- Whether an `Except` value is a success. -/
def isOkE {ε α : Type} : Except ε α → Bool
  | .ok _ => true
  | .error _ => false

/-- A computation is a success exactly when it returns some `ok` value. -/
theorem isOkE_ok_iff {ε α : Type} {x : Except ε α} : isOkE x = true ↔ ∃ a, x = .ok a := by
  cases x <;> simp [isOkE]

/-- C3 counterexample: with the default (valid) parameters and `n = 0`,
`run_monte_carlo_simulation` returns an (empty) table instead of failing,
although the claim demands a failure whenever `n ≤ 0`. -/
theorem simulation_error_contract_counterexample :
    run_monte_carlo_simulation PARAMS 0 (fun _ => 0) = .ok [] ∧ (0 : ℤ) ≤ 0 := by
  refine ⟨?_, le_refl 0⟩
  rw [run_ok PARAMS _ (by norm_num [validParams, validSpec, PARAMS]) le_rfl]
  rfl

/-- C3 (amended): the run succeeds exactly when every entry passes
`np.random.triangular`'s validation (`min ≤ mode ≤ max` and `min ≠ max`)
and `n ≥ 0`; the failures are NumPy `ValueError`s (no
`InvalidParameterError` type exists), a degenerate `min = max` entry fails
even though it satisfies `min ≤ mode ≤ max`, and `n = 0` succeeds with an
empty table even though the claim demands failure for `n ≤ 0`. -/
theorem simulation_ok_iff_valid (p : ParamSet) (n : ℤ) (u : Nat → ℚ) :
    isOkE (run_monte_carlo_simulation p n u) = true ↔ (validParams p ∧ 0 ≤ n) := by
  constructor
  · intro h
    obtain ⟨t, ht⟩ := isOkE_ok_iff.mp h
    obtain ⟨hv, hn, -⟩ := run_ok_inv ht
    exact ⟨hv, hn⟩
  · rintro ⟨hv, hn⟩
    rw [run_ok p u hv hn]
    rfl

/-- C4 counterexample: the degenerate spec `min = mode = max = 5` (which
satisfies `min ≤ mode ≤ max`) makes `triangular_sample` raise NumPy's
`ValueError("left == right")` instead of returning the constant 5 for all
3 requested samples. -/
theorem degenerate_triangular_counterexample :
    triangular_sample 5 5 5 3 (fun _ => 0) 0 = .error (.valueError "left == right") := by
  unfold triangular_sample
  rw [if_neg (lt_irrefl (5 : ℚ)), if_neg (lt_irrefl (5 : ℚ)), if_pos rfl]

/-- C4 (amended): for every degenerate spec `min = mode = max`, every
requested sample count and every stream state, `triangular_sample` fails
with NumPy's `ValueError("left == right")` — the source has no degenerate
guard, so it never returns the constant samples. -/
theorem degenerate_triangular_raises (c : ℚ) (size : ℤ) (u : Nat → ℚ) (off : Nat) :
    triangular_sample c c c size u off = .error (.valueError "left == right") := by
  unfold triangular_sample
  rw [if_neg (lt_irrefl c), if_neg (lt_irrefl c), if_pos rfl]

/-- C5 counterexample: on the empty Result Table `calculate_statistics`
returns a Statistics Mapping (aggregates `NaN`, modelled `none`; counts 0)
instead of failing — no `EmptyTableError` exists and no exception is
raised (pandas aggregations of an empty series give `NaN`, and the count
over an empty mask is 0). -/
theorem empty_table_statistics_counterexample :
    calculate_statistics [] =
      { mean_harm := none, median_harm := none, std_dev := none, min_harm := none,
        max_harm := none, percentile_10 := none, percentile_25 := none,
        percentile_75 := none, percentile_90 := none, percentile_95 := none,
        percentile_99 := none, customers_zero_harm := 0, customers_gt_1000 := 0,
        customers_gt_5000 := 0, pct_zero_harm := none, pct_gt_1000 := none,
        pct_gt_5000 := none, annual_impact_mean := none, annual_impact_p95 := none } := rfl

/-- C5 (amended): `calculate_statistics` is total — it never raises; its
aggregate metrics are undefined (`NaN`, modelled `none`) exactly on the
empty table, and on every table it is a pure function of the table with no
mutation and no randomness. -/
theorem statistics_mean_none_iff_empty (results : List PerUnitRecord) :
    (calculate_statistics results).mean_harm = none ↔ results = [] := by
  simp only [calculate_statistics, seriesMean]
  split_ifs with h
  · simp only [List.isEmpty_iff, List.map_eq_nil_iff] at h
    simp [h]
  · simp only [List.isEmpty_iff, List.map_eq_nil_iff] at h
    simp [h]

/-- The default parameters with the `base_service_cost` bounds swapped:
`min > mode` makes the very first triangular call raise. -/
def BAD_BSC_PARAMS : ParamSet := { PARAMS with base_service_cost := ⟨2, 1, 3⟩ }

/-- A failing `Except` value short-circuits a bind. -/
theorem error_bind {ε α β : Type} (e : ε) (f : α → Except ε β) :
    (Except.error e : Except ε α) >>= f = .error e := rfl

/-- A failure of the very first triangular call aborts the whole run. -/
theorem run_err_first {p : ParamSet} {n : ℤ} {u : Nat → ℚ} {e : SimError}
    (h : triangular_sample p.base_service_cost.min p.base_service_cost.mode
      p.base_service_cost.max n u 0 = .error e) :
    run_monte_carlo_simulation p n u = .error e := by
  simp only [run_monte_carlo_simulation, h, error_bind]

/-- C6 counterexample: a two-scenario ordered mapping whose first scenario
has invalid parameters.  The whole scenario loop evaluates to the raised
`ValueError`: the second (valid) scenario is never run, and no
name-to-result-or-error pairs are produced at all. -/
theorem scenario_isolation_counterexample :
    run_scenarios_list [("Bad", BAD_BSC_PARAMS), ("Status Quo", PARAMS)] 1 (fun _ => 0) =
      .error (.valueError "left > mode") := by
  have hbad : run_monte_carlo_simulation BAD_BSC_PARAMS 1 (fun _ => 0) =
      .error (.valueError "left > mode") := by
    apply run_err_first
    unfold triangular_sample
    rw [if_pos (by norm_num [BAD_BSC_PARAMS])]
  simp only [run_scenarios_list, hbad, error_bind]

/-- C6 (amended): the scenario loop does not isolate per-scenario
failures — an error raised while running any scenario at the head of the
remaining list propagates out of the whole loop, discarding all results;
only on an error-free run does the output pair each scenario name with its
result and statistics. -/
theorem scenario_error_propagates (name : String) (p : ParamSet)
    (rest : List (String × ParamSet)) (n : ℤ) (u : Nat → ℚ) (e : SimError)
    (h : run_monte_carlo_simulation p n u = .error e) :
    run_scenarios_list ((name, p) :: rest) n u = .error e := by
  simp only [run_scenarios_list, h, error_bind]

/-- Witness for C6 (amended): the propagation instantiated on the concrete
bad-then-good scenario list. -/
theorem scenario_error_propagates_witness :
    run_monte_carlo_simulation BAD_BSC_PARAMS 1 (fun _ => 0) =
      .error (.valueError "left > mode") ∧
    run_scenarios_list [("Bad", BAD_BSC_PARAMS), ("Status Quo", PARAMS)] 1 (fun _ => 0) =
      .error (.valueError "left > mode") := by
  have hbad : run_monte_carlo_simulation BAD_BSC_PARAMS 1 (fun _ => 0) =
      .error (.valueError "left > mode") := by
    apply run_err_first
    unfold triangular_sample
    rw [if_pos (by norm_num [BAD_BSC_PARAMS])]
  exact ⟨hbad, scenario_error_propagates _ _ _ _ _ _ hbad⟩

/-- Counting with a stronger predicate never exceeds counting with a
weaker one. -/
theorem countP_le_countP {α : Type} {p q : α → Bool} (l : List α)
    (h : ∀ x, p x = true → q x = true) : l.countP p ≤ l.countP q := by
  induction l with
  | nil => simp
  | cons a l ih =>
      simp only [List.countP_cons]
      have ha := h a
      cases hpa : p a <;> cases hqa : q a <;> simp_all
      omega

/-- C7: in every Statistics Mapping, the `Customers with Harm > $5000`
count is at most the `Customers with Harm > $1000` count: the two metrics
count the same column against nested thresholds. -/
theorem threshold_counts_monotone (results : List PerUnitRecord) :
    (calculate_statistics results).customers_gt_5000 ≤
      (calculate_statistics results).customers_gt_1000 := by
  simp only [calculate_statistics]
  refine countP_le_countP _ fun x hx => ?_
  simp only [decide_eq_true_eq] at hx ⊢
  linarith

/-- Modelled from the spec's words: the sample standard deviation of a
column with Bessel's correction — the square root of the sum of squared
deviations from the mean, divided by `N - 1`. -/
noncomputable def sampleStdBessel (xs : List ℝ) : ℝ :=
  Real.sqrt ((xs.map fun x => (x - xs.sum / xs.length) ^ 2).sum / ((xs.length : ℝ) - 1))

/-- C8: for every table with at least two records, the `Std Dev` metric
(pandas `Series.std()`, whose `ddof` defaults to 1) equals the sample
standard deviation of the `total_harm` column with Bessel's correction. -/
theorem std_dev_is_sample_std (results : List PerUnitRecord) (h : 2 ≤ results.length) :
    (calculate_statistics results).std_dev =
      some (sampleStdBessel (results.map PerUnitRecord.total_harm)) := by
  simp only [calculate_statistics, seriesStd, seriesVar, sampleStdBessel, List.length_map]
  rw [if_neg (by omega)]
  simp only [Option.map_some']
  congr 2
  rw [Nat.cast_sub (by omega), Nat.cast_one]

/-- A concrete two-record table for the C8 witness. -/
noncomputable def twoRecTable : List PerUnitRecord :=
  [⟨3200, 100, false, 0, false, 0, false, 0, 100⟩,
   ⟨3200, 300, true, 1000, false, 0, false, 0, 1300⟩]

/-- Witness for C8: the Bessel identity instantiated on a concrete
two-record table. -/
theorem std_dev_is_sample_std_witness :
    2 ≤ twoRecTable.length ∧
    (calculate_statistics twoRecTable).std_dev =
      some (sampleStdBessel (twoRecTable.map PerUnitRecord.total_harm)) := by
  have h : 2 ≤ twoRecTable.length := by norm_num [twoRecTable]
  exact ⟨h, std_dev_is_sample_std twoRecTable h⟩

/-- C9: reproducibility — two simulation runs over the same parameters and
iteration count whose global generators are seeded identically consume
identical uniform streams and produce identical Result Tables (every
sampled and boolean column included). -/
theorem reseeding_reproduces_table (p : ParamSet) (n : ℤ) (s1 s2 : Nat) (h : s1 = s2) :
    run_monte_carlo_simulation p n (seeded_stream s1) =
      run_monte_carlo_simulation p n (seeded_stream s2) := by
  rw [h]

/-- Witness for C9: seed 42 with the default parameters and iteration
count, as in the source's `np.random.seed(42)`. -/
theorem reseeding_reproduces_table_witness :
    (42 : Nat) = 42 ∧
    run_monte_carlo_simulation PARAMS N_SIMULATIONS (seeded_stream 42) =
      run_monte_carlo_simulation PARAMS N_SIMULATIONS (seeded_stream 42) :=
  ⟨rfl, reseeding_reproduces_table PARAMS N_SIMULATIONS 42 42 rfl⟩

/-- C10: on every non-empty table, each percentage metric of `main.py`'s
`calculate_statistics` is exactly the corresponding count metric divided
by the number of records, times 100. -/
theorem percentage_metrics_derived (results : List PerUnitRecord) (h : 0 < results.length) :
    (calculate_statistics results).pct_zero_harm =
      some (((calculate_statistics results).customers_zero_harm : ℝ) / results.length * 100) ∧
    (calculate_statistics results).pct_gt_1000 =
      some (((calculate_statistics results).customers_gt_1000 : ℝ) / results.length * 100) ∧
    (calculate_statistics results).pct_gt_5000 =
      some (((calculate_statistics results).customers_gt_5000 : ℝ) / results.length * 100) := by
  have hne : results ≠ [] := List.length_pos.mp h
  have hb : (results.map PerUnitRecord.total_harm).isEmpty = false := by
    cases results with
    | nil => exact absurd rfl hne
    | cons a l => rfl
  simp only [calculate_statistics, hb, Bool.false_eq_true, if_false, List.length_map]
  refine ⟨?_, ?_, ?_⟩ <;> trivial

/-- A concrete one-record table for the C10 witness. -/
noncomputable def oneRecTable : List PerUnitRecord :=
  [⟨3200, 100, false, 0, false, 0, false, 0, 100⟩]

/-- Witness for C10: the percentage identities instantiated on a concrete
one-record table. -/
theorem percentage_metrics_derived_witness :
    0 < oneRecTable.length ∧
    ((calculate_statistics oneRecTable).pct_zero_harm =
      some (((calculate_statistics oneRecTable).customers_zero_harm : ℝ) / oneRecTable.length * 100) ∧
    (calculate_statistics oneRecTable).pct_gt_1000 =
      some (((calculate_statistics oneRecTable).customers_gt_1000 : ℝ) / oneRecTable.length * 100) ∧
    (calculate_statistics oneRecTable).pct_gt_5000 =
      some (((calculate_statistics oneRecTable).customers_gt_5000 : ℝ) / oneRecTable.length * 100)) := by
  have h : 0 < oneRecTable.length := by norm_num [oneRecTable]
  exact ⟨h, percentage_metrics_derived oneRecTable h⟩
